import Mathlib

/-!
Shallow embedding of the authentication and role-approval subsystem of the
"Learn by Doing v1" backend (FastAPI + SQLAlchemy).  Python source files
embedded here:

  app/security/roles.py          -> Role
  app/models.py (User columns)   -> User
  app/password_validator.py      -> PasswordValidator.validate, validate_password
  app/db.py                      -> get_user_by_email, get_user_by_username,
                                    user_exists, authenticate_user, create_user
  app/security/jwt_manager.py    -> JWTManager.create_access_token,
                                    create_refresh_token, verify_token
  app/security/dependencies.py   -> get_current_user, require_role
  app/routers/auth.py            -> login, refresh, register, check_email,
                                    forgot_password, reset_password, get_me,
                                    approve_user, reject_user, create_educator,
                                    update_educator, delete_educator
  app/routers/users.py           -> update_user

Modelling conventions: the database session is a `List User`; `datetime.utcnow()`
is an explicit `now : Nat` (seconds); a decoded JWT is a record of optional
claims (`none` = key absent from the dict, as `dict.get` returns `None`);
Argon2 hashing and password verification (passlib, external collaborators)
are parameters `hash : String -> String` and `verify : String -> String -> Bool`;
base64 image encoding/decoding are parameters returning `Option` (a `none`
models the caught encode/decode exception).  Python string truthiness
(`if s:` on an `Optional[str]`) is `strTruthy`.  Regex classes `[A-Z]`,
`[a-z]` and `str.lower` are modelled on their ASCII behaviour, which is
Lean's `Char.isUpper`, `Char.isLower`, `Char.toLower`.
-/

namespace LBD

/-! ### app/security/roles.py -/

inductive Role where
  | PENDING
  | TEACHER
  | PARAEDUCATOR
  | ADMIN
  | SUPER_ADMIN
  | SUPERUSER
deriving DecidableEq, Repr

/-- The `.value` of the Python `str`-valued enum. -/
def Role.value : Role → String
  | .PENDING => "pending"
  | .TEACHER => "teacher"
  | .PARAEDUCATOR => "paraeducator"
  | .ADMIN => "admin"
  | .SUPER_ADMIN => "super_admin"
  | .SUPERUSER => "superuser"

/-- The Python constructor call `Role(s)`: `none` models the `ValueError`
raised on a string that is not a member value. -/
def Role.ofString (s : String) : Option Role :=
  if s = "pending" then some .PENDING
  else if s = "teacher" then some .TEACHER
  else if s = "paraeducator" then some .PARAEDUCATOR
  else if s = "admin" then some .ADMIN
  else if s = "super_admin" then some .SUPER_ADMIN
  else if s = "superuser" then some .SUPERUSER
  else none

/-! ### app/models.py: the `users` table row -/

structure User where
  id : Nat
  email : String
  username : String
  hashed_password : String
  first_name : Option String
  last_name : Option String
  desired_name : Option String
  phone : Option String
  is_active : Bool
  created_at : Nat
  password_reset_token : Option String
  password_reset_expires : Option Nat
  password_reset_requested_at : Option Nat
  role : String
  is_approved : Bool
  approved_at : Option Nat
  approved_by_id : Option Nat
  approval_notes : Option String
  is_rejected : Bool
  rejected_at : Option Nat
  rejected_by_id : Option Nat
  rejection_reason : Option String
  registered_date : Option Nat
  profile_image : Option (List Nat)
  timezone : Option String
deriving DecidableEq, Repr

/-- A fresh row with the column defaults of `app/models.py`
(`is_active=True`, `role="pending"`, `is_approved=False`, `is_rejected=False`,
every nullable column NULL). -/
def User.fresh (id : Nat) (email username hashed_password : String)
    (created_at : Nat) : User :=
  { id := id, email := email, username := username
    hashed_password := hashed_password
    first_name := none, last_name := none, desired_name := none, phone := none
    is_active := true, created_at := created_at
    password_reset_token := none, password_reset_expires := none
    password_reset_requested_at := none
    role := "pending", is_approved := false
    approved_at := none, approved_by_id := none, approval_notes := none
    is_rejected := false, rejected_at := none, rejected_by_id := none
    rejection_reason := none
    registered_date := none, profile_image := none, timezone := none }

/-- SQLAlchemy commit of an in-place mutation of a row fetched by primary
key: every row with that id is replaced by the mutated row. -/
def dbUpdateUser (db : List User) (u' : User) : List User :=
  db.map fun u => if u.id == u'.id then u' else u

/-- Python truthiness of an `Optional[str]`: `None` and `""` are falsy. -/
def strTruthy : Option String → Bool
  | some s => !s.isEmpty
  | none => false

/-- Python `a or b` on two `Optional[str]` values. -/
def pyOr (a b : Option String) : Option String :=
  if strTruthy a then a else b

/-- True when `needle` is a prefix of `hay` (character lists). -/
def beginsWith : List Char → List Char → Bool
  | _, [] => true
  | [], _ :: _ => false
  | c :: cs, d :: ds => c == d && beginsWith cs ds

/-- Python substring test `needle in hay` on character lists. -/
def containsSub : List Char → List Char → Bool
  | [], needle => beginsWith [] needle
  | c :: t, needle => beginsWith (c :: t) needle || containsSub t needle

/-! ### app/password_validator.py -/

namespace PasswordValidator

def MIN_LENGTH : Nat := 12
def REQUIRE_UPPERCASE : Bool := true
def REQUIRE_LOWERCASE : Bool := true
def REQUIRE_DIGIT : Bool := true
def REQUIRE_SPECIAL : Bool := true
def SPECIAL_CHARS : String := "!@#$%^&*()_+-=[]\x7b\x7d|;:,.<>?"

/-- The f-string with `MIN_LENGTH = 12` rendered. -/
def lengthMsg : String := "Password must be at least 12 characters long"
def uppercaseMsg : String := "Password must contain at least one uppercase letter"
def lowercaseMsg : String := "Password must contain at least one lowercase letter"
def digitMsg : String := "Password must contain at least one digit"
/-- The f-string with `SPECIAL_CHARS` rendered. -/
def specialMsg : String :=
  "Password must contain at least one special character (!@#$%^&*()_+-=[]\x7b\x7d|;:,.<>?)"

/-- Classmethod `PasswordValidator.validate`: each rule is checked on its own and
appends its message; the result is `(len(errors) == 0, errors)`. -/
def validate (password : String) : Bool × List String :=
  let errors : List String := []
  let errors := if password.length < MIN_LENGTH then errors ++ [lengthMsg] else errors
  let errors :=
    if REQUIRE_UPPERCASE && !(password.toList.any Char.isUpper)
    then errors ++ [uppercaseMsg] else errors
  let errors :=
    if REQUIRE_LOWERCASE && !(password.toList.any Char.isLower)
    then errors ++ [lowercaseMsg] else errors
  let errors :=
    if REQUIRE_DIGIT && !(password.toList.any Char.isDigit)
    then errors ++ [digitMsg] else errors
  let errors :=
    if REQUIRE_SPECIAL && !(password.toList.any fun c => SPECIAL_CHARS.toList.contains c)
    then errors ++ [specialMsg] else errors
  (errors.length == 0, errors)

end PasswordValidator

def usernameMsg : String := "Password should not contain your username or email"

structure ValidationResult where
  is_valid : Bool
  errors : List String
  strength_guide : List String
deriving DecidableEq, Repr

/-- Module-level `validate_password(password, username="")`: the class
validation plus the case-insensitive username containment check. -/
def validate_password (password : String) (username : String) : ValidationResult :=
  let r := PasswordValidator.validate password
  let is_valid := r.1
  let errors := r.2
  let r' :=
    if strTruthy (some username)
        && containsSub password.toLower.toList username.toLower.toList
    then (false, errors ++ [usernameMsg])
    else (is_valid, errors)
  { is_valid := r'.1
    errors := r'.2
    strength_guide :=
      [ "At least 12 characters long"
      , "Contains uppercase and lowercase letters"
      , "Contains at least one number"
      , "Contains at least one special character (!@#$%^&*()_+-=[]\x7b\x7d|;:,.<>?)"
      , "Does not contain your username or email" ] }

/-! ### app/db.py -/

def get_user_by_email (db : List User) (email : String) : Option User :=
  db.find? fun u => u.email == email

def get_user_by_username (db : List User) (username : String) : Option User :=
  db.find? fun u => u.username == username

/-- Helper `user_exists(db, email=None, username=None)` with Python truthiness on
both optional arguments. -/
def user_exists (db : List User) (email username : Option String) : Bool :=
  if strTruthy email then
    (db.find? fun u => some u.email == email).isSome
  else if strTruthy username then
    (db.find? fun u => some u.username == username).isSome
  else false

/-- Helper `authenticate_user`: looks the account up by email only, then verifies
the password.  `verify` stands for passlib's `pwd_context.verify`. -/
def authenticate_user (verify : String → String → Bool) (db : List User)
    (email password : String) : Option User :=
  match get_user_by_email db email with
  | none => none
  | some user => if !(verify password user.hashed_password) then none else some user

/-- Helper `create_user`: inserts a fresh row.  `hash` stands for passlib's
`pwd_context.hash`; `id` is the primary key the store assigns; `now` is the
insert time (the `created_at` column default). -/
def create_user (hash : String → String) (db : List User) (id : Nat)
    (email username password : String) (first_name last_name : Option String)
    (role : String) (is_approved : Bool) (now : Nat) : User × List User :=
  let user : User :=
    { User.fresh id email username (hash password) now with
      first_name := first_name, last_name := last_name
      role := role, is_approved := is_approved, is_active := true }
  (user, db ++ [user])

/-! ### app/security/jwt_manager.py -/

/-- The pydantic `TokenPayload` handed to the token factory methods. -/
structure TokenPayload where
  user_id : Nat
  email : String
  role : Role
  first_name : Option String
  last_name : Option String
  desired_name : Option String
deriving DecidableEq, Repr

/-- A decoded JWT payload dict.  Each field is one key the code reads or
writes; `none` models the key being absent (`dict.get` returning `None`).
The signature is abstracted: claims produced by the issuer functions below
stand for tokens that verify cryptographically. -/
structure JwtClaims where
  user_id : Option Nat
  sub : Option Nat
  email : Option String
  role : Option String
  first_name : Option String
  last_name : Option String
  desired_name : Option String
  type : Option String
  exp : Option Nat
  iat : Option Nat
deriving DecidableEq, Repr

namespace JWTManager

def ACCESS_TOKEN_EXPIRE_MINUTES : Nat := 30
def REFRESH_TOKEN_EXPIRE_DAYS : Nat := 7

/-- Classmethod `create_access_token`: `payload.model_dump()` plus `type`, string `role`,
`exp` and `iat`.  The dump has no `"sub"` key, hence `sub := none`. -/
def create_access_token (payload : TokenPayload) (now : Nat) : JwtClaims :=
  { user_id := some payload.user_id
    sub := none
    email := some payload.email
    role := some payload.role.value
    first_name := payload.first_name
    last_name := payload.last_name
    desired_name := payload.desired_name
    type := some "access"
    exp := some (now + ACCESS_TOKEN_EXPIRE_MINUTES * 60)
    iat := some now }

/-- Classmethod `create_refresh_token`: only `user_id`, `email`, `type`, `exp`, `iat`. -/
def create_refresh_token (payload : TokenPayload) (now : Nat) : JwtClaims :=
  { user_id := some payload.user_id
    sub := none
    email := some payload.email
    role := none
    first_name := none
    last_name := none
    desired_name := none
    type := some "refresh"
    exp := some (now + REFRESH_TOKEN_EXPIRE_DAYS * 86400)
    iat := some now }

/-- Classmethod `verify_token` on a token whose signature checks out: PyJWT raises
`ExpiredSignatureError` exactly when the `exp` claim is in the past. -/
def verify_token (claims : JwtClaims) (now : Nat) : Except String JwtClaims :=
  match claims.exp with
  | some e => if e < now then Except.error "Signature has expired" else Except.ok claims
  | none => Except.ok claims

end JWTManager

/-! ### HTTP errors and app/security/dependencies.py -/

/-- A raised `HTTPException`. -/
structure HError where
  status_code : Nat
  detail : String
deriving DecidableEq, Repr

/-- Dependency `get_current_user`: verify the bearer token, then require
`payload.get("type") == "access"`. -/
def get_current_user (claims : JwtClaims) (now : Nat) : Except HError JwtClaims :=
  match JWTManager.verify_token claims now with
  | Except.error _ => Except.error ⟨401, "Token has expired"⟩
  | Except.ok payload =>
    if payload.type ≠ some "access" then Except.error ⟨401, "Invalid token type"⟩
    else Except.ok payload

/-- Dependency factory `require_role(*allowed_roles)` applied to a request's token: the
`"superuser"` literal bypasses the check, otherwise the `role` claim must be
one of the allowed values (a missing claim is never a member). -/
def require_role (allowed_roles : List Role) (claims : JwtClaims) (now : Nat) :
    Except HError JwtClaims :=
  match get_current_user claims now with
  | Except.error e => Except.error e
  | Except.ok current_user =>
    let user_role := current_user.role
    if user_role = some Role.SUPERUSER.value then Except.ok current_user
    else
      let allowed_role_values := allowed_roles.map Role.value
      if (match user_role with
          | some r => allowed_role_values.contains r
          | none => false) then
        Except.ok current_user
      else
        Except.error ⟨403, "Insufficient permissions. Required role: "
          ++ String.intercalate ", " allowed_role_values⟩

/-! ### app/routers/auth.py: request/response models and helpers -/

structure UserInfo where
  id : Nat
  email : String
  username : String
  first_name : Option String
  last_name : Option String
  desired_name : Option String
  role : String
  is_approved : Bool
  profile_image : Option String
deriving DecidableEq, Repr

/-- Helper `_build_user_info`: `enc` stands for `_encode_profile_image`
(base64), whose failure (`none`) degrades to no image. -/
def build_user_info (enc : List Nat → Option String) (user : User) : UserInfo :=
  { id := user.id, email := user.email, username := user.username
    first_name := user.first_name, last_name := user.last_name
    desired_name := user.desired_name, role := user.role
    is_approved := user.is_approved
    profile_image :=
      match user.profile_image with
      | none => none
      | some bytes => enc bytes }

structure LoginRequest where
  email : Option String
  username : Option String
  password : String
deriving DecidableEq, Repr

/-- Response model `LoginResponse`; the opaque encoded access token is represented by its
claims. -/
structure LoginResponse where
  access_token : JwtClaims
  token_type : String
  user : UserInfo
deriving DecidableEq, Repr

structure RegisterRequest where
  email : String
  username : String
  password : String
  first_name : String
  last_name : String
  desired_name : String
  phone : Option String
deriving DecidableEq, Repr

structure RegisterResponse where
  id : Nat
  email : String
  first_name : String
  last_name : String
  desired_name : String
  role : String
  is_approved : Bool
  created_at : Nat
  message : String
deriving DecidableEq, Repr

structure ForgotPasswordResponse where
  message : String
  email : String
deriving DecidableEq, Repr

structure ResetPasswordRequest where
  token : String
  new_password : String
deriving DecidableEq, Repr

structure ResetPasswordResponse where
  message : String
  email : String
deriving DecidableEq, Repr

def genericForgotMsg : String :=
  "If this email is registered, you will receive a password reset link shortly."

def resetSuccessMsg : String :=
  "✅ Your password has been successfully reset. You can now login with your new password."

/-! ### POST /auth/login -/

/-- The `login` handler.  `verify` is passlib verification, `enc` the image
encoder.  Note `authenticate_user` receives whichever identifier was sent
(`credentials.email or credentials.username`). -/
def login (verify : String → String → Bool) (enc : List Nat → Option String)
    (credentials : LoginRequest) (db : List User) (now : Nat) :
    Except HError LoginResponse :=
  let email_or_username := pyOr credentials.email credentials.username
  if !(strTruthy email_or_username) then
    Except.error ⟨400, "Either email or username must be provided"⟩
  else
    match authenticate_user verify db (email_or_username.getD "") credentials.password with
    | none => Except.error ⟨401, "Invalid email/username or password"⟩
    | some user =>
      match Role.ofString user.role with
      | none => Except.error ⟨500, "Failed to generate authentication token"⟩
      | some r =>
        let token_payload : TokenPayload :=
          ⟨user.id, user.email, r, user.first_name, user.last_name, user.desired_name⟩
        Except.ok
          { access_token := JWTManager.create_access_token token_payload now
            token_type := "bearer"
            user := build_user_info enc user }

/-! ### POST /auth/refresh -/

/-- The `refresh_token` handler.  Every `ValueError` and JWT error inside the
`try` is caught and surfaced as the one 401.  The handler reads the subject
from `payload.get("sub")` (with Python truthiness, so an id of `0` is also
"missing"). -/
def refreshEndpoint (request_token : JwtClaims) (db : List User) (now : Nat) :
    Except HError JwtClaims :=
  let err : Except HError JwtClaims :=
    Except.error ⟨401, "Invalid or expired refresh token"⟩
  match JWTManager.verify_token request_token now with
  | Except.error _ => err
  | Except.ok payload =>
    if payload.type ≠ some "refresh" then err
    else
      match payload.sub with
      | none => err
      | some user_id =>
        if user_id = 0 then err
        else
          match db.find? (fun u => u.id == user_id) with
          | none => err
          | some user =>
            if user.is_approved ≠ true then err
            else
              match Role.ofString user.role with
              | none => err
              | some r =>
                Except.ok (JWTManager.create_access_token
                  ⟨user.id, user.email, r, user.first_name, user.last_name,
                    user.desired_name⟩ now)

/-! ### POST /auth/register -/

/-- Python `user_data.email.split("@")[0]`. -/
def localPart (email : String) : String :=
  (email.splitOn "@").headD ""

/-- The `register` handler: password policy (against the email local part),
email conflict, username conflict, then `create_user` with the default
`role="pending"`, `is_approved=False`.  The second component is the session
state after the request. -/
def registerEndpoint (hash : String → String) (req : RegisterRequest)
    (db : List User) (newId now : Nat) :
    Except HError RegisterResponse × List User :=
  let vr := validate_password req.password (localPart req.email)
  if vr.is_valid = false then
    (Except.error ⟨400, "Password does not meet security requirements"⟩, db)
  else if user_exists db (some req.email) none then
    (Except.error ⟨409, "Email already registered. Please login or reset your password."⟩, db)
  else if (get_user_by_username db req.username).isSome then
    (Except.error ⟨409, "Username already taken. Please choose a different username."⟩, db)
  else
    let r := create_user hash db newId req.email req.username req.password
      (some req.first_name) (some req.last_name) "pending" false now
    (Except.ok
      { id := r.1.id, email := r.1.email
        first_name := r.1.first_name.getD "", last_name := r.1.last_name.getD ""
        desired_name := r.1.desired_name.getD "", role := r.1.role
        is_approved := r.1.is_approved, created_at := r.1.created_at
        message := "Account created successfully. You will receive an email once an administrator approves your account." },
      r.2)

/-! ### POST /auth/check-email -/

/-- The `check_email` handler: returns the `exists` flag of the response
dict `\x7b"exists": user_exists(db, email)\x7d`. -/
def check_email (db : List User) (email : String) : Bool :=
  user_exists db (some email) none

/-! ### POST /auth/forgot-password -/

/-- The `forgot_password` handler.  `reset_tok` is the generated
`secrets.token_urlsafe(32)` value, `expiry_hours` the configured expiry.
`dbFail` models a `SQLAlchemyError` on commit (rolled back), `notifFail` an
exception from the email collaborator (raised after the commit): each is
caught and the one generic response returned. -/
def forgot_password (req_email : String) (db : List User) (now : Nat)
    (reset_tok : String) (expiry_hours : Nat) (dbFail _notifFail : Bool) :
    ForgotPasswordResponse × List User :=
  match get_user_by_email db req_email with
  | none => (⟨genericForgotMsg, req_email⟩, db)
  | some user =>
    if dbFail then (⟨genericForgotMsg, req_email⟩, db)
    else
      let expires_at := now + expiry_hours * 3600
      let user' := { user with
        password_reset_token := some reset_tok
        password_reset_expires := some expires_at
        password_reset_requested_at := some now }
      let db' := dbUpdateUser db user'
      -- the email send happens after the commit; its failure (notifFail) is
      -- caught by the generic handler, which returns the same response
      (⟨genericForgotMsg, req_email⟩, db')

/-! ### POST /auth/reset-password -/

/-- The `reset_password` handler.  The second component is the session state
after the request: unchanged on every failure path (the exception is raised
before any mutation). -/
def reset_password (hash : String → String) (req : ResetPasswordRequest)
    (db : List User) (now : Nat) :
    Except HError ResetPasswordResponse × List User :=
  let vr := validate_password req.new_password ""
  if vr.is_valid = false then
    (Except.error ⟨400, "New password does not meet security requirements"⟩, db)
  else
    match db.find? (fun u => u.password_reset_token == some req.token) with
    | none =>
      (Except.error ⟨400, "Invalid or expired password reset link. Please request a new one."⟩, db)
    | some user =>
      match user.password_reset_expires with
      | none =>
        (Except.error ⟨400, "Password reset link has expired. Please request a new one."⟩, db)
      | some expires =>
        if expires < now then
          (Except.error ⟨400, "Password reset link has expired. Please request a new one."⟩, db)
        else
          let user' := { user with
            hashed_password := hash req.new_password
            password_reset_token := none
            password_reset_expires := none
            password_reset_requested_at := none }
          (Except.ok ⟨resetSuccessMsg, user.email⟩, dbUpdateUser db user')

/-! ### GET /auth/me -/

/-- The `get_me` handler, after `get_current_user` succeeded: reads
`current_user.get("sub")` (Python truthiness: `None` and `0` both fail). -/
def get_me (enc : List Nat → Option String) (db : List User)
    (current_user : JwtClaims) : Except HError UserInfo :=
  match current_user.sub with
  | none => Except.error ⟨401, "Invalid token"⟩
  | some user_id =>
    if user_id = 0 then Except.error ⟨401, "Invalid token"⟩
    else
      match db.find? (fun u => u.id == user_id) with
      | none => Except.error ⟨404, "User not found"⟩
      | some db_user => Except.ok (build_user_info enc db_user)

/-! ### POST /auth/admin/approve-user -/

structure ApproveUserRequest where
  user_id : Nat
  approval_notes : Option String
  role : String
deriving DecidableEq, Repr

structure ApproveUserResponse where
  message : String
  user_id : Nat
  role : String
  is_approved : Bool
deriving DecidableEq, Repr

/-- The `approve_user` handler body (after `require_role(ADMIN, SUPER_ADMIN)`
admitted `current_user`).  `Role(request.role)` raising `ValueError`, and the
explicit raise on `PENDING`, are both caught by the one 400.  The update sets
`is_rejected = False` and `rejection_reason = None` but touches neither
`rejected_at` nor `rejected_by_id`; `approved_by_id` is
`current_user.get("sub")`. -/
def approve_user (req : ApproveUserRequest) (current_user : JwtClaims)
    (db : List User) (now : Nat) :
    Except HError (ApproveUserResponse × List User) :=
  match db.find? (fun u => u.id == req.user_id) with
  | none =>
    Except.error ⟨404, "User with ID " ++ toString req.user_id ++ " not found"⟩
  | some user =>
    match Role.ofString req.role with
    | none => Except.error ⟨400, "Invalid role: " ++ req.role⟩
    | some requested_role =>
      if requested_role = Role.PENDING then
        Except.error ⟨400, "Invalid role: " ++ req.role⟩
      else
        let user' := { user with
          is_approved := true
          approved_at := some now
          registered_date := some now
          approved_by_id := current_user.sub
          role := requested_role.value
          is_rejected := false
          rejection_reason := none
          approval_notes := req.approval_notes }
        Except.ok
          ({ message := "User " ++ user.email ++ " has been approved as "
              ++ requested_role.value
             user_id := user.id
             role := requested_role.value
             is_approved := true },
           dbUpdateUser db user')

/-! ### POST /auth/admin/reject-user -/

structure RejectUserRequest where
  user_id : Nat
  rejection_reason : String
deriving DecidableEq, Repr

/-- The `reject_user` handler body (role guard already passed). -/
def reject_user (req : RejectUserRequest) (current_user : JwtClaims)
    (db : List User) (now : Nat) : Except HError Unit × List User :=
  match db.find? (fun u => u.id == req.user_id) with
  | none =>
    (Except.error ⟨404, "User with ID " ++ toString req.user_id ++ " not found"⟩, db)
  | some user =>
    let user' := { user with
      is_rejected := true
      rejected_at := some now
      rejected_by_id := current_user.sub
      rejection_reason := some req.rejection_reason
      is_active := false }
    (Except.ok (), dbUpdateUser db user')

/-! ### POST /auth/admin/educators -/

structure CreateEducatorRequest where
  first_name : String
  last_name : String
  email : String
  role : String
  phone : String
  username : String
  password : String
  desired_name : Option String
deriving DecidableEq, Repr

/-- The `create_educator` handler body: role whitelist, email and username
conflicts, `create_user` (so the row starts with the defaults
`role="pending"`, `is_approved=False`), then in-place promotion to the
requested role with `is_approved=True` before the commit.  The response
payload is reduced to the created id. -/
def create_educator (hash : String → String) (req : CreateEducatorRequest)
    (current_user : JwtClaims) (db : List User) (newId now : Nat) :
    Except HError Nat × List User :=
  let valid_roles := [Role.TEACHER.value, Role.PARAEDUCATOR.value, Role.ADMIN.value]
  if !(valid_roles.contains req.role) then
    (Except.error ⟨400, "Invalid role. Must be one of: "
      ++ String.intercalate ", " valid_roles⟩, db)
  else if (db.find? fun u => u.email == req.email).isSome then
    (Except.error ⟨400, "Email already exists"⟩, db)
  else if strTruthy (some req.username)
      && (db.find? fun u => u.username == req.username).isSome then
    (Except.error ⟨400, "Username already exists"⟩, db)
  else
    let r := create_user hash db newId req.email req.username req.password
      (some req.first_name) (some req.last_name) "pending" false now
    let new_user := { r.1 with
      role := req.role
      is_approved := true
      approved_at := some now
      registered_date := some now
      approved_by_id := current_user.sub }
    (Except.ok new_user.id, dbUpdateUser r.2 new_user)

/-! ### PUT /auth/admin/educators/\x7beducator_id\x7d -/

structure UpdateEducatorRequest where
  first_name : Option String
  last_name : Option String
  email : Option String
  role : Option String
  phone : Option String
  username : Option String
  password : Option String
  desired_name : Option String
deriving DecidableEq, Repr

/-- The sequence of `is not None` guarded setattrs of `update_educator`.
The password branch assigns `educator.password_hash`, which is not a mapped
column of the `User` model, so nothing of it persists. -/
def applyEducatorUpdates (educator : User) (req : UpdateEducatorRequest) : User :=
  let educator := match req.first_name with
    | some v => { educator with first_name := some v } | none => educator
  let educator := match req.last_name with
    | some v => { educator with last_name := some v } | none => educator
  let educator := match req.email with
    | some v => { educator with email := v } | none => educator
  let educator := match req.role with
    | some v => { educator with role := v } | none => educator
  let educator := match req.phone with
    | some v => { educator with phone := some v } | none => educator
  let educator := match req.username with
    | some v => { educator with username := v } | none => educator
  let educator := match req.desired_name with
    | some v => { educator with desired_name := some v } | none => educator
  educator

/-- The `update_educator` handler body.  Validation guards use Python
truthiness (`if request.role:`), the assignments use `is not None` — so a
provided empty-string role skips validation yet is assigned. -/
def update_educator (educator_id : Nat) (req : UpdateEducatorRequest)
    (db : List User) : Except HError Unit × List User :=
  match db.find? (fun u => u.id == educator_id) with
  | none =>
    (Except.error ⟨404, "Educator with ID " ++ toString educator_id ++ " not found"⟩, db)
  | some educator =>
    let valid_roles := [Role.TEACHER.value, Role.PARAEDUCATOR.value, Role.ADMIN.value]
    if strTruthy req.role && !(valid_roles.contains (req.role.getD "")) then
      (Except.error ⟨400, "Invalid role. Must be one of: "
        ++ String.intercalate ", " valid_roles⟩, db)
    else if strTruthy req.email && req.email ≠ some educator.email
        && (db.find? fun u => some u.email == req.email).isSome then
      (Except.error ⟨400, "Email already exists"⟩, db)
    else if strTruthy req.username && req.username ≠ some educator.username
        && (db.find? fun u => some u.username == req.username).isSome then
      (Except.error ⟨400, "Username already exists"⟩, db)
    else
      (Except.ok (), dbUpdateUser db (applyEducatorUpdates educator req))

/-! ### DELETE /auth/admin/educators/\x7beducator_id\x7d -/

/-- The `delete_educator` handler body. -/
def delete_educator (educator_id : Nat) (db : List User) :
    Except HError Unit × List User :=
  match db.find? (fun u => u.id == educator_id) with
  | none =>
    (Except.error ⟨404, "Educator with ID " ++ toString educator_id ++ " not found"⟩, db)
  | some _ => (Except.ok (), db.filter fun u => !(u.id == educator_id))

/-! ### app/routers/users.py: PUT /users/\x7buser_id\x7d -/

structure UserUpdate where
  email : Option String
  first_name : Option String
  last_name : Option String
  role : Option String
  desired_name : Option String
  phone : Option String
  profile_image : Option String
  timezone : Option String
deriving DecidableEq, Repr

/-- The users-router `update_user` handler (it carries no authentication
dependency and no role whitelist: any truthy `role` string is assigned).
`dec` stands for `_decode_profile_image`; `none` models the `ValueError`
that surfaces as the 400. -/
def users_update_user (dec : String → Option (List Nat)) (user_id : Nat)
    (req : UserUpdate) (db : List User) : Except HError Unit × List User :=
  match db.find? (fun u => u.id == user_id) with
  | none => (Except.error ⟨404, "User not found"⟩, db)
  | some db_user =>
    let db_user := match req.email with
      | some v => if v.isEmpty then db_user else { db_user with email := v }
      | none => db_user
    let db_user := match req.first_name with
      | some v => if v.isEmpty then db_user else { db_user with first_name := some v }
      | none => db_user
    let db_user := match req.last_name with
      | some v => if v.isEmpty then db_user else { db_user with last_name := some v }
      | none => db_user
    let db_user := match req.role with
      | some v => if v.isEmpty then db_user else { db_user with role := v }
      | none => db_user
    let db_user := match req.desired_name with
      | some v => { db_user with desired_name := some v } | none => db_user
    let db_user := match req.phone with
      | some v => { db_user with phone := some v } | none => db_user
    let db_user := match req.timezone with
      | some v => { db_user with timezone := some v } | none => db_user
    match req.profile_image with
    | none => (Except.ok (), dbUpdateUser db db_user)
    | some s =>
      if s.isEmpty then
        (Except.ok (), dbUpdateUser db { db_user with profile_image := none })
      else
        match dec s with
        | none => (Except.error ⟨400, "Invalid image data"⟩, db)
        | some bytes =>
          (Except.ok (), dbUpdateUser db { db_user with profile_image := some bytes })

/-! ### The account-lifecycle state machine over the auth router -/

/-- One state-changing request of the auth router (`app/routers/auth.py`).
`newId` is the primary key the store assigns on an insert; the actor claims
are the decoded admin token where the handler reads them. -/
inductive AuthOp where
  | register (newId : Nat) (req : RegisterRequest)
  | approve (req : ApproveUserRequest) (actor : JwtClaims)
  | reject (req : RejectUserRequest) (actor : JwtClaims)
  | forgot (email reset_tok : String) (expiry_hours : Nat) (dbFail notifFail : Bool)
  | reset (req : ResetPasswordRequest)
  | createEducator (newId : Nat) (req : CreateEducatorRequest) (actor : JwtClaims)
  | updateEducator (educator_id : Nat) (req : UpdateEducatorRequest)
  | deleteEducator (educator_id : Nat)
deriving Repr

/-- The store state after one auth-router request. -/
def applyAuthOp (hash : String → String) (now : Nat) (op : AuthOp)
    (db : List User) : List User :=
  match op with
  | .register newId req => (registerEndpoint hash req db newId now).2
  | .approve req actor =>
    match approve_user req actor db now with
    | Except.ok r => r.2
    | Except.error _ => db
  | .reject req actor => (reject_user req actor db now).2
  | .forgot email reset_tok expiry_hours dbFail notifFail =>
    (forgot_password email db now reset_tok expiry_hours dbFail notifFail).2
  | .reset req => (reset_password hash req db now).2
  | .createEducator newId req actor => (create_educator hash req actor db newId now).2
  | .updateEducator educator_id req => (update_educator educator_id req db).2
  | .deleteEducator educator_id => (delete_educator educator_id db).2

/-- The data-model invariant: a pending role is never approved. -/
def RoleInv (db : List User) : Prop :=
  ∀ u ∈ db, u.role = "pending" → u.is_approved = false

/-! ### Concrete instances for counterexamples and witnesses -/

/-- An image encoder that always degrades (its value never matters here). -/
def encNone : List Nat → Option String := fun _ => none

/-- An image decoder that always fails (its value never matters here). -/
def decNone : String → Option (List Nat) := fun _ => none

/-- A deterministic stand-in for the Argon2 hash in concrete runs. -/
def hashX : String → String := fun s => "argon2$" ++ s

/-- An approved teacher account. -/
def uTeacher : User :=
  { User.fresh 1 "a@x.com" "auser" "H3" 0 with role := "teacher", is_approved := true }

/-- Password verification that accepts exactly `uTeacher`'s credentials. -/
def verifyX : String → String → Bool := fun p h => p == "pw-correct-17" && h == "H3"

/-- A previously rejected account. -/
def uRejected : User :=
  { User.fresh 1 "r@x.com" "ruser" "H" 0 with
    is_rejected := true, rejected_at := some 5, rejected_by_id := some 2
    rejection_reason := some "late", is_active := false }

/-- An admin's decoded token that does carry a `sub` claim. -/
def actorWithSub : JwtClaims :=
  { user_id := some 9, sub := some 9, email := some "admin@x.com"
    role := some "admin", first_name := none, last_name := none
    desired_name := none, type := some "access", exp := none, iat := none }

/-- State of `uRejected` after `approve_user` with role `teacher`, actor `actorWithSub`,
at time 100: rejection timestamp and rejecting admin survive. -/
def uRejectedApproved : User :=
  { uRejected with
    is_approved := true, approved_at := some 100, registered_date := some 100
    approved_by_id := some 9, role := "teacher"
    is_rejected := false, rejection_reason := none, approval_notes := none }

/-- An account holding a reset ticket whose expiry is exactly 50. -/
def uTicket : User :=
  { User.fresh 1 "c4@x.com" "c4user" "H" 0 with
    password_reset_token := some "tk", password_reset_expires := some 50
    password_reset_requested_at := some 10 }

/-- A policy-valid password (12 chars, upper, lower, digit, special). -/
def goodPw : String := "Abcdef123!xy"

/-- The token-payload of an admin whose access token approves users. -/
def pAdmin : TokenPayload := ⟨9, "admin@x.com", Role.ADMIN, none, none, none⟩

/-- A pending account awaiting approval. -/
def uPending : User := User.fresh 1 "p@x.com" "puser" "H" 0

/-- State of `uPending` approved as teacher at time 7 by a token with no `sub` claim. -/
def uPendingApproved : User :=
  { uPending with
    is_approved := true, approved_at := some 7, registered_date := some 7
    approved_by_id := none, role := "teacher"
    is_rejected := false, rejection_reason := none, approval_notes := none }

/-- A users-router update that only sets the role string to `"pending"`. -/
def reqRolePending : UserUpdate := ⟨none, none, none, some "pending", none, none, none, none⟩

/-- A subject-only access token's claims used by the guard examples:
an approved teacher's token. -/
def tokTeacher : JwtClaims := JWTManager.create_access_token
  ⟨1, "a@x.com", Role.TEACHER, none, none, none⟩ 0

/-! ## Helper lemmas -/

/-- An element of a committed row update is the mutated row or an untouched
row with a different id. -/
theorem mem_dbUpdateUser {db : List User} {v u : User} (h : u ∈ dbUpdateUser db v) :
    u = v ∨ (u ∈ db ∧ (u.id == v.id) = false) := by
  unfold dbUpdateUser at h
  rcases List.mem_map.mp h with ⟨w, hw, hmap⟩
  cases hid : (w.id == v.id) with
  | true => simp [hid] at hmap; exact Or.inl hmap.symm
  | false =>
    simp [hid] at hmap
    subst hmap
    exact Or.inr ⟨hw, hid⟩

/-- The string value of a non-pending role is not `"pending"`. -/
theorem Role.value_ne_pending {r : Role} (h : r ≠ Role.PENDING) :
    r.value ≠ "pending" := by
  cases r <;> simp_all [Role.value]

/-! ## Claim theorems -/

/-- Claim C1 (code bug witness): every token produced by
`JWTManager.create_refresh_token` is rejected by the refresh endpoint with
401, whatever the store holds and whether or not the token is expired — the
handler reads the subject from the `"sub"` claim, which the refresh-token
factory never writes (it writes `"user_id"`). -/
theorem C1_refresh_rejects_own_tokens (p : TokenPayload) (iat : Nat)
    (db : List User) (now : Nat) :
    refreshEndpoint (JWTManager.create_refresh_token p iat) db now =
      Except.error ⟨401, "Invalid or expired refresh token"⟩ := by
  by_cases h : iat + JWTManager.REFRESH_TOKEN_EXPIRE_DAYS * 86400 < now <;>
    simp [refreshEndpoint, JWTManager.create_refresh_token, JWTManager.verify_token, h]

/-- Claim C3 (code bug witness): with an account whose username is `auser`
and whose password verifies, login by username is rejected with the generic
401 (`authenticate_user` looks the identifier up as an email only), while
login by email with the same password succeeds. -/
theorem C3_username_login_fails :
    login verifyX encNone ⟨none, some "auser", "pw-correct-17"⟩ [uTeacher] 0 =
      Except.error ⟨401, "Invalid email/username or password"⟩ ∧
    (login verifyX encNone ⟨some "a@x.com", none, "pw-correct-17"⟩ [uTeacher] 0).isOk
      = true :=
  ⟨rfl, rfl⟩

/-- Claim C8, counterexample: the check-email endpoint answers `true` for a
registered address and `false` for an unregistered one, so an
email-existence-sensitive lookup is externally observable. -/
theorem C8_check_email_reveals :
    check_email [uTeacher] "a@x.com" = true ∧
    check_email [uTeacher] "b@x.com" = false :=
  ⟨rfl, rfl⟩

/-- Claim C8, amended: the forgot-password response is the one generic
message echoing the requested address, for every store state (email
registered or not) and every internal failure (persistence or
notification). -/
theorem C8_forgot_password_uniform (req_email : String) (db : List User)
    (now : Nat) (reset_tok : String) (expiry_hours : Nat) (dbFail notifFail : Bool) :
    (forgot_password req_email db now reset_tok expiry_hours dbFail notifFail).1 =
      ⟨genericForgotMsg, req_email⟩ := by
  unfold forgot_password
  cases h : get_user_by_email db req_email <;> cases dbFail <;> simp [h]

/-- Claim C2: an access token stores the subject only under `user_id` and
carries no `sub` claim; therefore `get_me` rejects every such token with 401
(it reads `sub`), and `approve_user` acting under such a token records
`approved_by_id` as null. -/
theorem C2_access_token_has_no_sub (p : TokenPayload) (now now2 : Nat)
    (enc : List Nat → Option String) (db db2 : List User)
    (req : ApproveUserRequest) :
    (JWTManager.create_access_token p now).user_id = some p.user_id ∧
    (JWTManager.create_access_token p now).sub = none ∧
    get_me enc db (JWTManager.create_access_token p now) =
      Except.error ⟨401, "Invalid token"⟩ ∧
    (∀ resp db',
      approve_user req (JWTManager.create_access_token p now) db2 now2 =
        Except.ok (resp, db') →
      ∀ u' ∈ db', u'.id = req.user_id → u'.approved_by_id = none) := by
  refine ⟨rfl, rfl, rfl, ?_⟩
  intro resp db' h u' hu' hid
  unfold approve_user at h
  cases hfind : db2.find? (fun u => u.id == req.user_id) with
  | none => simp [hfind] at h
  | some user =>
    simp only [hfind] at h
    cases hrole : Role.ofString req.role with
    | none => simp [hrole] at h
    | some r =>
      simp only [hrole] at h
      by_cases hp : r = Role.PENDING
      · simp [hp] at h
      · simp only [if_neg hp, Except.ok.injEq, Prod.mk.injEq] at h
        obtain ⟨-, hdb⟩ := h
        subst hdb
        rcases mem_dbUpdateUser hu' with hEq | ⟨_, hne⟩
        · subst hEq; rfl
        · have huid : user.id = req.user_id := by simpa using List.find?_some hfind
          have hne' : u'.id ≠ user.id := by simpa using hne
          exact (hne' (hid.trans huid.symm)).elim

/-- Claim C2, witness: a pending account approved under the admin access
token issued by this system ends with a null `approved_by_id`. -/
theorem C2_witness : uPendingApproved.approved_by_id = none :=
  (C2_access_token_has_no_sub pAdmin 0 7 encNone [] [uPending]
      ⟨1, none, "teacher"⟩).2.2.2
    ⟨"User p@x.com has been approved as teacher", 1, "teacher", true⟩
    [uPendingApproved] rfl uPendingApproved (by simp) rfl

/-- Claim C5, counterexample: approving a previously rejected account
succeeds but leaves `rejected_at` and `rejected_by_id` populated — the
handler clears only `is_rejected` and `rejection_reason`, so the rejection
state is not all cleared as the claim states. -/
theorem C5_rejection_state_survives :
    approve_user ⟨1, none, "teacher"⟩ actorWithSub [uRejected] 100 =
      Except.ok (⟨"User r@x.com has been approved as teacher", 1, "teacher", true⟩,
        [uRejectedApproved]) ∧
    uRejectedApproved.rejected_at = some 5 ∧
    uRejectedApproved.rejected_by_id = some 2 ∧
    uRejectedApproved.is_approved = true :=
  ⟨rfl, rfl, rfl, rfl⟩

/-- Claim C5, amended: on an existing account with a known non-pending
target role, approve sets `is_approved`, `approved_at`, `registered_date`,
`approved_by_id` (to the actor token's `sub` claim), the role, and clears
`is_rejected` and `rejection_reason` — while `rejected_at` and
`rejected_by_id` keep their prior values; an unknown account id fails 404
and a pending or unknown role fails 400. -/
theorem C5_approve_user_amended (req : ApproveUserRequest) (actor : JwtClaims)
    (db : List User) (now : Nat) :
    (db.find? (fun u => u.id == req.user_id) = none →
      approve_user req actor db now =
        Except.error ⟨404, "User with ID " ++ toString req.user_id ++ " not found"⟩) ∧
    (∀ user, db.find? (fun u => u.id == req.user_id) = some user →
      (Role.ofString req.role = none ∨ Role.ofString req.role = some Role.PENDING) →
      approve_user req actor db now =
        Except.error ⟨400, "Invalid role: " ++ req.role⟩) ∧
    (∀ user, db.find? (fun u => u.id == req.user_id) = some user →
      ∀ r, Role.ofString req.role = some r → r ≠ Role.PENDING →
      (approve_user req actor db now).isOk = true ∧
      (∀ resp db', approve_user req actor db now = Except.ok (resp, db') →
        ∀ u' ∈ db', u'.id = req.user_id →
          u'.is_approved = true ∧
          u'.approved_at = some now ∧
          u'.registered_date = some now ∧
          u'.approved_by_id = actor.sub ∧
          u'.role = r.value ∧
          u'.role ≠ "pending" ∧
          u'.is_rejected = false ∧
          u'.rejection_reason = none ∧
          u'.rejected_at = user.rejected_at ∧
          u'.rejected_by_id = user.rejected_by_id)) := by
  refine ⟨?_, ?_, ?_⟩
  · intro hfind
    simp [approve_user, hfind]
  · intro user hfind hbad
    rcases hbad with h | h <;> simp [approve_user, hfind, h]
  · intro user hfind r hr hnp
    constructor
    · simp [approve_user, hfind, hr, hnp, Except.isOk, Except.toBool]
    · intro resp db' h u' hu' hid
      unfold approve_user at h
      simp only [hfind, hr, if_neg hnp, Except.ok.injEq, Prod.mk.injEq] at h
      obtain ⟨-, hdb⟩ := h
      subst hdb
      rcases mem_dbUpdateUser hu' with hEq | ⟨_, hne⟩
      · subst hEq
        exact ⟨rfl, rfl, rfl, rfl, rfl, Role.value_ne_pending hnp, rfl, rfl, rfl, rfl⟩
      · have huid : user.id = req.user_id := by simpa using List.find?_some hfind
        have hne' : u'.id ≠ user.id := by simpa using hne
        exact (hne' (hid.trans huid.symm)).elim

/-- Claim C5, witness: the amended approve succeeds on the concrete
previously rejected account. -/
theorem C5_witness :
    (approve_user ⟨1, none, "teacher"⟩ actorWithSub [uRejected] 100).isOk = true :=
  ((C5_approve_user_amended ⟨1, none, "teacher"⟩ actorWithSub [uRejected] 100).2.2
    uRejected rfl Role.TEACHER rfl (by decide)).1

/-- Claim C4, counterexample: a ticket whose stored expiry exactly equals
the current time is accepted, not rejected — the handler's expiry test is
strict (`expires < now`), while the claim states rejection when the expiry
is less than or equal to now. -/
theorem C4_expiry_boundary_accepted :
    (validate_password goodPw "").is_valid = true ∧
    uTicket.password_reset_expires = some 50 ∧
    (reset_password hashX ⟨"tk", goodPw⟩ [uTicket] 50).1.isOk = true :=
  ⟨rfl, rfl, rfl⟩

/-- Claim C4, amended: with a policy-valid new password, reset fails (with
status 400) if and only if no account holds the ticket, or the stored expiry
is null, or the stored expiry is strictly less than now (an expiry exactly
equal to now is accepted); on success the credential hash is replaced and
the ticket, expiry and requested-at fields are all cleared. -/
theorem C4_reset_password_amended (hash : String → String)
    (req : ResetPasswordRequest) (db : List User) (now : Nat)
    (hvalid : (validate_password req.new_password "").is_valid = true) :
    ((reset_password hash req db now).1.isOk = false ↔
      (db.find? (fun u => u.password_reset_token == some req.token) = none ∨
        ∃ user,
          db.find? (fun u => u.password_reset_token == some req.token) = some user ∧
          (user.password_reset_expires = none ∨
            ∃ e, user.password_reset_expires = some e ∧ e < now))) ∧
    (∀ err, (reset_password hash req db now).1 = Except.error err →
      err.status_code = 400) ∧
    (∀ user,
      db.find? (fun u => u.password_reset_token == some req.token) = some user →
      (reset_password hash req db now).1.isOk = true →
      (reset_password hash req db now).2 =
        dbUpdateUser db
          { user with
            hashed_password := hash req.new_password
            password_reset_token := none
            password_reset_expires := none
            password_reset_requested_at := none }) := by
  refine ⟨?_, ?_, ?_⟩
  · cases hfind : db.find? (fun u => u.password_reset_token == some req.token) with
    | none => simp [reset_password, hvalid, hfind, Except.isOk, Except.toBool]
    | some user =>
      cases hexp : user.password_reset_expires with
      | none => simp [reset_password, hvalid, hfind, hexp, Except.isOk, Except.toBool]
      | some e =>
        by_cases hlt : e < now <;>
          simp [reset_password, hvalid, hfind, hexp, hlt, Except.isOk, Except.toBool]
  · intro err herr
    unfold reset_password at herr
    simp only [hvalid] at herr
    cases hfind : db.find? (fun u => u.password_reset_token == some req.token) with
    | none => simp [hfind] at herr; simp [← herr]
    | some user =>
      simp only [hfind] at herr
      cases hexp : user.password_reset_expires with
      | none => simp [hexp] at herr; simp [← herr]
      | some e =>
        simp only [hexp] at herr
        by_cases hlt : e < now
        · simp [hlt] at herr; simp [← herr]
        · simp [hlt] at herr
  · intro user hfind hok
    unfold reset_password at hok ⊢
    simp only [hvalid, hfind] at hok ⊢
    cases hexp : user.password_reset_expires with
    | none => simp [hexp, Except.isOk, Except.toBool] at hok
    | some e =>
      simp only [hexp] at hok ⊢
      by_cases hlt : e < now
      · simp [hlt, Except.isOk, Except.toBool] at hok
      · simp [hlt]

/-- Claim C4, witness: the amended statement at a concrete unexpired ticket:
reset succeeds and commits the rehashed credential with all three reset
fields cleared. -/
theorem C4_witness :
    (reset_password hashX ⟨"tk", goodPw⟩ [uTicket] 30).2 =
      dbUpdateUser [uTicket]
        { uTicket with
          hashed_password := hashX goodPw
          password_reset_token := none
          password_reset_expires := none
          password_reset_requested_at := none } :=
  (C4_reset_password_amended hashX ⟨"tk", goodPw⟩ [uTicket] 30 rfl).2.2
    uTicket rfl rfl

/-- Claim C10: every failing reset — unknown ticket, null expiry, or
expired ticket — leaves the store exactly as it was; in particular a stale
ticket is not cleared by the failed attempt. -/
theorem C10_failed_reset_changes_nothing (hash : String → String)
    (req : ResetPasswordRequest) (db : List User) (now : Nat) (err : HError)
    (h : (reset_password hash req db now).1 = Except.error err) :
    (reset_password hash req db now).2 = db := by
  unfold reset_password at h ⊢
  by_cases hv : (validate_password req.new_password "").is_valid = false
  · simp [hv]
  · simp only [if_neg hv] at h ⊢
    cases hfind : db.find? (fun u => u.password_reset_token == some req.token) with
    | none => simp [hfind]
    | some user =>
      simp only [hfind] at h ⊢
      cases hexp : user.password_reset_expires with
      | none => simp [hexp]
      | some e =>
        simp only [hexp] at h ⊢
        by_cases hlt : e < now
        · simp [hlt]
        · simp [hlt] at h

/-- Claim C10, witness: the failed reset of the concrete expired ticket
(expiry 50, attempted at 99) leaves the one-row store unchanged. -/
theorem C10_witness :
    (reset_password hashX ⟨"tk", goodPw⟩ [uTicket] 99).2 = [uTicket] :=
  C10_failed_reset_changes_nothing hashX ⟨"tk", goodPw⟩ [uTicket] 99
    ⟨400, "Password reset link has expired. Please request a new one."⟩ rfl

/-- Claim C7: for a token whose signature and expiry verify, the access
guard rejects any kind other than `access` with 401; on a verified access
token, `require_role` admits a `superuser` role unconditionally, admits a
role belonging to the endpoint's allowed set, and rejects anything else
with 403. -/
theorem C7_access_guard (claims : JwtClaims) (allowed : List Role) (now : Nat)
    (hver : JWTManager.verify_token claims now = Except.ok claims) :
    (claims.type ≠ some "access" →
      get_current_user claims now = Except.error ⟨401, "Invalid token type"⟩ ∧
      require_role allowed claims now = Except.error ⟨401, "Invalid token type"⟩) ∧
    (claims.type = some "access" → claims.role = some "superuser" →
      require_role allowed claims now = Except.ok claims) ∧
    (claims.type = some "access" → ∀ r ∈ allowed, claims.role = some r.value →
      require_role allowed claims now = Except.ok claims) ∧
    (claims.type = some "access" → claims.role ≠ some "superuser" →
      (∀ r ∈ allowed, claims.role ≠ some r.value) →
      require_role allowed claims now =
        Except.error ⟨403, "Insufficient permissions. Required role: "
          ++ String.intercalate ", " (allowed.map Role.value)⟩) := by
  have hgcu : claims.type = some "access" →
      get_current_user claims now = Except.ok claims := by
    intro ht
    simp [get_current_user, hver, ht]
  refine ⟨?_, ?_, ?_, ?_⟩
  · intro ht
    have h1 : get_current_user claims now = Except.error ⟨401, "Invalid token type"⟩ := by
      simp [get_current_user, hver, ht]
    exact ⟨h1, by simp [require_role, h1]⟩
  · intro ht hsu
    simp only [require_role, hgcu ht]
    rw [if_pos]
    exact hsu
  · intro ht r hr hrv
    simp only [require_role, hgcu ht]
    by_cases hsub : claims.role = some Role.SUPERUSER.value
    · rw [if_pos hsub]
    · rw [if_neg hsub, if_pos]
      show (match claims.role with
        | some v => (allowed.map Role.value).contains v
        | none => false) = true
      rw [hrv]
      exact List.elem_iff.mpr (List.mem_map_of_mem Role.value hr)
  · intro ht hsu hnm
    simp only [require_role, hgcu ht]
    have hsu' : ¬ claims.role = some Role.SUPERUSER.value := hsu
    rw [if_neg hsu', if_neg]
    show ¬ ((match claims.role with
      | some v => (allowed.map Role.value).contains v
      | none => false) = true)
    cases hrole : claims.role with
    | none => simp
    | some v =>
      intro hc
      rcases List.mem_map.mp (List.elem_iff.mp hc) with ⟨r, hrmem, hrv⟩
      exact absurd (hrole.trans (congrArg some hrv.symm)) (hnm r hrmem)

/-- Claim C7, witness: a fresh teacher access token is rejected with 403 by
an admin-only guard, and admitted by a guard allowing teachers. -/
theorem C7_witness :
    require_role [Role.ADMIN] tokTeacher 5 =
      Except.error ⟨403, "Insufficient permissions. Required role: "
        ++ String.intercalate ", " ([Role.ADMIN].map Role.value)⟩ :=
  (C7_access_guard tokTeacher [Role.ADMIN] 5 rfl).2.2.2 rfl (by decide)
    (by decide)

/-- Claim C6: every rule of the password policy is checked independently
(each violated rule's message appears in the result whatever the other
rules do — in particular the length error appears for every password
shorter than 12 characters), the username check fires exactly on a truthy
username contained case-insensitively in the password, and `is_valid` holds
exactly when the error list is empty. -/
theorem C6_validate_password_rules (p u : String) :
    ((validate_password p u).is_valid = true ↔ (validate_password p u).errors = []) ∧
    (PasswordValidator.lengthMsg ∈ (validate_password p u).errors ↔
      p.length < PasswordValidator.MIN_LENGTH) ∧
    (PasswordValidator.uppercaseMsg ∈ (validate_password p u).errors ↔
      p.toList.any Char.isUpper = false) ∧
    (PasswordValidator.lowercaseMsg ∈ (validate_password p u).errors ↔
      p.toList.any Char.isLower = false) ∧
    (PasswordValidator.digitMsg ∈ (validate_password p u).errors ↔
      p.toList.any Char.isDigit = false) ∧
    (PasswordValidator.specialMsg ∈ (validate_password p u).errors ↔
      (p.toList.any fun c => PasswordValidator.SPECIAL_CHARS.toList.contains c) = false) ∧
    (usernameMsg ∈ (validate_password p u).errors ↔
      (u.isEmpty = false ∧ containsSub p.toLower.toList u.toLower.toList = true)) := by
  by_cases h1 : p.length < PasswordValidator.MIN_LENGTH <;>
    cases h2 : p.toList.any Char.isUpper <;>
    cases h3 : p.toList.any Char.isLower <;>
    cases h4 : p.toList.any Char.isDigit <;>
    cases h5 : p.toList.any (fun c => PasswordValidator.SPECIAL_CHARS.toList.contains c) <;>
    cases h6 : u.isEmpty <;>
    cases h7 : containsSub p.toLower.toList u.toLower.toList <;>
    simp only [validate_password, PasswordValidator.validate, strTruthy,
      PasswordValidator.REQUIRE_UPPERCASE, PasswordValidator.REQUIRE_LOWERCASE,
      PasswordValidator.REQUIRE_DIGIT, PasswordValidator.REQUIRE_SPECIAL,
      h1, h2, h3, h4, h5, h6, h7,
      Bool.true_and, Bool.not_true, Bool.not_false, if_true, if_false,
      List.nil_append] <;>
    decide

/-- The educator-update setattr chain never touches the approval flag. -/
theorem applyEducatorUpdates_is_approved (e : User) (req : UpdateEducatorRequest) :
    (applyEducatorUpdates e req).is_approved = e.is_approved := by
  rcases req with ⟨fn, ln, em, rl, ph, un, pw, dn⟩
  cases fn <;> cases ln <;> cases em <;> cases rl <;> cases ph <;> cases un <;>
    cases dn <;> rfl

/-- The educator-update setattr chain sets the role exactly when one was
provided. -/
theorem applyEducatorUpdates_role (e : User) (req : UpdateEducatorRequest) :
    (applyEducatorUpdates e req).role =
      (match req.role with | some v => v | none => e.role) := by
  rcases req with ⟨fn, ln, em, rl, ph, un, pw, dn⟩
  cases fn <;> cases ln <;> cases em <;> cases rl <;> cases ph <;> cases un <;>
    cases dn <;> rfl

/-- Claim C9, counterexample: the users-router update endpoint can set the
role string to `pending` on an approved teacher without clearing the
approval flag, so a state with role `pending` and `is_approved = true` is
reachable from a state satisfying the invariant. -/
theorem C9_pending_approved_reachable :
    RoleInv [uTeacher] ∧
    (users_update_user decNone 1 reqRolePending [uTeacher]).1 = Except.ok () ∧
    ¬ RoleInv (users_update_user decNone 1 reqRolePending [uTeacher]).2 := by
  refine ⟨?_, rfl, ?_⟩
  · intro v hv hrole
    simp only [List.mem_singleton] at hv
    subst hv
    exact absurd hrole (by decide)
  · intro h
    have hres : (users_update_user decNone 1 reqRolePending [uTeacher]).2 =
        [{ uTeacher with role := "pending" }] := by decide
    have happ := h { uTeacher with role := "pending" }
      (by rw [hres]; exact List.mem_singleton.mpr rfl) rfl
    exact absurd happ (by decide)

/-- Claim C9, amended: the pending-implies-unapproved invariant is preserved
by every state-changing request of the auth router — registration creates
pending unapproved rows, approval and educator-creation set a validated
non-pending role together with the approval flag, educator updates validate
any truthy role against the non-pending whitelist, and the remaining
operations touch neither field. -/
theorem C9_roleinv_auth_ops (hash : String → String) (now : Nat) (op : AuthOp)
    (db : List User) (hinv : RoleInv db) :
    RoleInv (applyAuthOp hash now op db) := by
  cases op with
  | register newId req =>
    simp only [applyAuthOp, registerEndpoint]
    split
    · exact hinv
    · split
      · exact hinv
      · split
        · exact hinv
        · intro v hv _
          simp only [create_user] at hv
          rcases List.mem_append.mp hv with h | h
          · exact hinv v h (by assumption)
          · simp only [List.mem_singleton] at h
            subst h
            rfl
  | approve req actor =>
    simp only [applyAuthOp]
    cases happ : approve_user req actor db now with
    | error e => exact hinv
    | ok r =>
      unfold approve_user at happ
      cases hfind : db.find? (fun u => u.id == req.user_id) with
      | none => simp [hfind] at happ
      | some user =>
        simp only [hfind] at happ
        cases hrole : Role.ofString req.role with
        | none => simp [hrole] at happ
        | some rr =>
          simp only [hrole] at happ
          by_cases hp : rr = Role.PENDING
          · simp [hp] at happ
          · simp only [if_neg hp, Except.ok.injEq] at happ
            subst happ
            intro v hv hpend
            rcases mem_dbUpdateUser hv with hEq | ⟨hmem, _⟩
            · subst hEq
              exact absurd hpend (Role.value_ne_pending hp)
            · exact hinv v hmem hpend
  | reject req actor =>
    simp only [applyAuthOp, reject_user]
    cases hfind : db.find? (fun u => u.id == req.user_id) with
    | none => simp only [hfind]; exact hinv
    | some user =>
      simp only [hfind]
      intro v hv hpend
      rcases mem_dbUpdateUser hv with hEq | ⟨hmem, _⟩
      · subst hEq
        exact hinv user (List.mem_of_find?_eq_some hfind) hpend
      · exact hinv v hmem hpend
  | forgot email reset_tok expiry_hours dbFail notifFail =>
    simp only [applyAuthOp, forgot_password]
    cases hfind : get_user_by_email db email with
    | none => simp only [hfind]; exact hinv
    | some user =>
      simp only [hfind]
      unfold get_user_by_email at hfind
      split
      · exact hinv
      · intro v hv hpend
        rcases mem_dbUpdateUser hv with hEq | ⟨hmem, _⟩
        · subst hEq
          exact hinv user (List.mem_of_find?_eq_some hfind) hpend
        · exact hinv v hmem hpend
  | reset req =>
    simp only [applyAuthOp, reset_password]
    split
    · exact hinv
    · cases hfind : db.find? (fun u => u.password_reset_token == some req.token) with
      | none => simp only [hfind]; exact hinv
      | some user =>
        simp only [hfind]
        cases hexp : user.password_reset_expires with
        | none => exact hinv
        | some e =>
          by_cases hlt : e < now
          · simp only [if_pos hlt]; exact hinv
          · simp only [if_neg hlt]
            intro v hv hpend
            rcases mem_dbUpdateUser hv with hEq | ⟨hmem, _⟩
            · subst hEq
              exact hinv user (List.mem_of_find?_eq_some hfind) hpend
            · exact hinv v hmem hpend
  | createEducator newId req actor =>
    simp only [applyAuthOp, create_educator]
    split
    case isTrue => exact hinv
    case isFalse h1 =>
      split
      · exact hinv
      · split
        · exact hinv
        · intro v hv hpend
          rcases mem_dbUpdateUser hv with hEq | ⟨hmem, _⟩
          · subst hEq
            have hc : ([Role.TEACHER.value, Role.PARAEDUCATOR.value,
                Role.ADMIN.value].contains req.role) = true := by
              cases hcc : ([Role.TEACHER.value, Role.PARAEDUCATOR.value,
                  Role.ADMIN.value].contains req.role) with
              | true => rfl
              | false => exact absurd (by rw [hcc]; rfl) h1
            have hmem' := List.elem_iff.mp hc
            have hpend' : req.role = "pending" := hpend
            rw [hpend'] at hmem'
            simp [Role.value] at hmem'
          · simp only [create_user] at hmem
            rcases List.mem_append.mp hmem with h | h
            · exact hinv v h hpend
            · simp only [List.mem_singleton] at h
              subst h
              rfl
  | updateEducator educator_id req =>
    simp only [applyAuthOp, update_educator]
    cases hfind : db.find? (fun u => u.id == educator_id) with
    | none => simp only [hfind]; exact hinv
    | some educator =>
      simp only [hfind]
      split
      case isTrue => exact hinv
      case isFalse h1 =>
        split
        · exact hinv
        · split
          · exact hinv
          · intro v hv hpend
            rcases mem_dbUpdateUser hv with hEq | ⟨hmem, _⟩
            · subst hEq
              rw [applyEducatorUpdates_is_approved]
              have hrole' : (applyEducatorUpdates educator req).role = "pending" := hpend
              rw [applyEducatorUpdates_role] at hrole'
              cases hr : req.role with
              | none =>
                simp only [hr] at hrole'
                exact hinv educator (List.mem_of_find?_eq_some hfind) hrole'
              | some rv =>
                simp only [hr] at hrole'
                subst hrole'
                rw [hr] at h1
                exact absurd (by decide) h1
            · exact hinv v hmem hpend
  | deleteEducator educator_id =>
    simp only [applyAuthOp, delete_educator]
    cases hfind : db.find? (fun u => u.id == educator_id) with
    | none => simp only [hfind]; exact hinv
    | some u0 =>
      simp only [hfind]
      intro v hv hpend
      exact hinv v (List.mem_of_mem_filter hv) hpend

/-- Claim C9, witness: the amended preservation theorem applied to a
concrete approval on a pending one-row store. -/
theorem C9_witness :
    RoleInv (applyAuthOp hashX 3
      (AuthOp.approve ⟨1, none, "teacher"⟩ actorWithSub) [uPending]) :=
  C9_roleinv_auth_ops hashX 3 _ [uPending] (by
    intro v hv _
    simp only [List.mem_singleton] at hv
    subst hv
    rfl)

end LBD
